import Mathlib

/-!
Shallow embedding of the submission form logic of `src/Ripple AI/src/App.tsx`
(the `App` component and its `handleSubmit` function).

The component state consists of four React `useState` fields:
`username`, `message`, `isLoading`, `status`.  `handleSubmit` reads the
closure values of these fields, and, when the guard passes, performs one
`fetch` POST and a sequence of state-setter calls.  We model one invocation
of `handleSubmit` as the list of observable events it emits (state-setter
calls and network requests, in program order), parameterised by the
behaviour of the external server (`FetchOutcome`).
-/

namespace RippleApp

/-- The fixed endpoint URL (`const API_URL` in App.tsx). -/
def API_URL : String := "http://localhost:5000/send-dm"

/-- Lower-case hexadecimal digit for a value below 16. -/
def hexDigit (n : Nat) : Char :=
  if n < 10 then Char.ofNat (48 + n) else Char.ofNat (87 + n)

/-- Four-digit hexadecimal rendering, as in a JSON `\uXXXX` escape. -/
def hex4 (n : Nat) : String :=
  String.mk [hexDigit ((n / 4096) % 16), hexDigit ((n / 256) % 16),
             hexDigit ((n / 16) % 16), hexDigit (n % 16)]

/-- The escape of one character inside a JSON string literal, following
`JSON.stringify` (ECMA-262 QuoteJSONString). -/
def jsEscapeChar (c : Char) : String :=
  if c = '"' then "\\\""
  else if c = '\\' then "\\\\"
  else if c = Char.ofNat 8 then "\\b"
  else if c = Char.ofNat 12 then "\\f"
  else if c = '\n' then "\\n"
  else if c = '\r' then "\\r"
  else if c = '\t' then "\\t"
  else if c.toNat < 32 then "\\u" ++ hex4 c.toNat
  else String.singleton c

/-- The JSON string literal for `s`, as produced by `JSON.stringify`. -/
def jsonQuote (s : String) : String :=
  "\"" ++ String.join (s.data.map jsEscapeChar) ++ "\""

/-- `JSON.stringify (\x7b username: u, message: m \x7d)`: the request body
built in `handleSubmit` (object keys in insertion order, no whitespace). -/
def jsonStringifyUM (u m : String) : String :=
  "\x7b\"username\":" ++ jsonQuote u ++ ",\"message\":" ++ jsonQuote m ++ "\x7d"

/-- An outbound HTTP request as issued by the `fetch` call in `handleSubmit`. -/
structure Request where
  method : String
  url : String
  contentType : String
  body : String
deriving DecidableEq, Repr

/-- The request `handleSubmit` builds from the current `username` and
`message` closure values. -/
def mkRequest (u m : String) : Request :=
  { method := "POST", url := API_URL, contentType := "application/json",
    body := jsonStringifyUM u m }

/-- The component state: the four `useState` fields of `App`.
`status` is `Option String` because `setStatus(data.status)` can store
JavaScript `undefined` when the parsed body has no `status` field;
`none` models `undefined`. -/
structure AppState where
  username : String
  message : String
  isLoading : Bool
  status : Option String
deriving DecidableEq, Repr

/-- A thrown JavaScript value, as discriminated by the
`error instanceof Error` test in the catch block: either an `Error`
object carrying a message, or any other value. -/
inductive Thrown where
  | error (msg : String)
  | nonError
deriving DecidableEq, Repr

/-- The result of `await response.json()`: either the parse threw, or it
produced a value whose `.status` field is the given string when present
(`none` models an absent / undefined `status` field). -/
inductive ParseResult where
  | threw (t : Thrown)
  | parsed (statusField : Option String)
deriving DecidableEq, Repr

/-- The behaviour of the external server for one `fetch` call: either the
fetch promise resolves to a response with the given `ok` flag and body
parse result, or the fetch itself rejects with a thrown value. -/
inductive FetchOutcome where
  | resolved (ok : Bool) (parse : ParseResult)
  | rejected (t : Thrown)
deriving DecidableEq, Repr

/-- An observable event emitted by one run of `handleSubmit`: a call to a
React state setter, or an outbound network request. -/
inductive Event where
  | setStatus (v : Option String)
  | setMessage (v : String)
  | setIsLoading (b : Bool)
  | request (r : Request)
deriving DecidableEq, Repr

/-- The status string stored by the catch block:
`setStatus(Error: $\x7berror.message\x7d)` when the thrown value is an
`Error`, the fixed fallback otherwise. -/
def catchMessage : Thrown → String
  | .error msg => "Error: " ++ msg
  | .nonError => "An unknown error occurred."

/-- JavaScript `x || d` for a string-or-undefined `x`: the default is used
when `x` is absent or the empty string (both falsy). -/
def jsOrDefault : Option String → String → String
  | some s, d => if s = "" then d else s
  | none, d => d

/-- One run of `handleSubmit` from closure state `s` with server behaviour
`o`, as the list of events it emits in program order.  Mirrors App.tsx
lines 22-62: the guard `if (!message || isLoading) return`, then
`setIsLoading(true)`, `setStatus('Sending...')`, the `fetch`, the body
parse, the `!response.ok` throw, the success setters, the catch block,
and the `finally` `setIsLoading(false)`. -/
def submitEvents (s : AppState) (o : FetchOutcome) : List Event :=
  if s.message = "" ∨ s.isLoading = true then []
  else
    [Event.setIsLoading true, Event.setStatus (some ("Sending...")),
     Event.request (mkRequest s.username s.message)]
    ++ (match o with
        | .rejected t => [Event.setStatus (some (catchMessage t))]
        | .resolved _ (.threw t) => [Event.setStatus (some (catchMessage t))]
        | .resolved ok (.parsed fld) =>
          if ok then [Event.setStatus fld, Event.setMessage ""]
          else [Event.setStatus
                  (some (catchMessage (Thrown.error (jsOrDefault fld ("An error occurred.")))))])
    ++ [Event.setIsLoading false]

/-- The effect of one event on the component state (network requests do not
change the state). -/
def applyEvent (s : AppState) : Event → AppState
  | .setStatus v => { s with status := v }
  | .setMessage v => { s with message := v }
  | .setIsLoading b => { s with isLoading := b }
  | .request _ => s

/-- Fold a list of events over a state. -/
def applyEvents (s : AppState) (es : List Event) : AppState :=
  es.foldl applyEvent s

/-- The component state after one complete run of `handleSubmit`. -/
def submitFinal (s : AppState) (o : FetchOutcome) : AppState :=
  applyEvents s (submitEvents s o)

/-- The network requests among a list of events. -/
def requestsOf (es : List Event) : List Request :=
  es.filterMap (fun e => match e with | .request r => some r | _ => none)

/-- The successive values passed to `setStatus` in a list of events. -/
def statusSets (es : List Event) : List (Option String) :=
  es.filterMap (fun e => match e with | .setStatus v => some v | _ => none)

/-- The status line actually rendered: the JSX renders the status paragraph
only when `status` is truthy, so `undefined` and the empty string display
nothing. -/
def displayedStatus (s : AppState) : Option String :=
  match s.status with
  | some str => if str = "" then none else some str
  | none => none

/-- A string starting with the error prefix is never empty, so the rendered
status line shows it. -/
lemma error_prefix_ne_empty (t : String) : ("Error: " ++ t) ≠ "" := by
  intro h
  have h2 : ("Error: " ++ t).length = (0 : Nat) := by rw [h]; rfl
  rw [String.length_append] at h2
  have h3 : ("Error: " : String).length = 7 := rfl
  omega

/-- C4: a submit event with an empty message field emits no events at all:
no network call, and status, message, username and the in-flight flag are
all unchanged. -/
theorem empty_message_no_effect (s : AppState) (o : FetchOutcome)
    (h : s.message = "") :
    submitEvents s o = [] ∧ requestsOf (submitEvents s o) = [] ∧
      submitFinal s o = s := by
  have he : submitEvents s o = [] := by simp [submitEvents, h]
  exact ⟨he, by simp [requestsOf, he], by simp [submitFinal, he, applyEvents]⟩

/-- C4 witness at a concrete state and outcome. -/
theorem empty_message_no_effect_witness :
    submitEvents ⟨"alice", "", false, some ("old")⟩ (FetchOutcome.rejected Thrown.nonError) = [] ∧
    requestsOf (submitEvents ⟨"alice", "", false, some ("old")⟩ (FetchOutcome.rejected Thrown.nonError)) = [] ∧
    submitFinal ⟨"alice", "", false, some ("old")⟩ (FetchOutcome.rejected Thrown.nonError) =
      ⟨"alice", "", false, some ("old")⟩ :=
  empty_message_no_effect ⟨"alice", "", false, some ("old")⟩ (FetchOutcome.rejected Thrown.nonError) rfl

/-- C5: a submit event that fires while the in-flight flag is set emits no
events: no additional network call, and the state is unchanged. -/
theorem inflight_guard_no_effect (s : AppState) (o : FetchOutcome)
    (h : s.isLoading = true) :
    submitEvents s o = [] ∧ requestsOf (submitEvents s o) = [] ∧
      submitFinal s o = s := by
  have he : submitEvents s o = [] := by simp [submitEvents, h]
  exact ⟨he, by simp [requestsOf, he], by simp [submitFinal, he, applyEvents]⟩

/-- C5 witness at a concrete state and outcome. -/
theorem inflight_guard_no_effect_witness :
    submitEvents ⟨"alice", "hi", true, some ("Sending...")⟩
      (FetchOutcome.resolved true (ParseResult.parsed (some ("Sent!")))) = [] ∧
    requestsOf (submitEvents ⟨"alice", "hi", true, some ("Sending...")⟩
      (FetchOutcome.resolved true (ParseResult.parsed (some ("Sent!"))))) = [] ∧
    submitFinal ⟨"alice", "hi", true, some ("Sending...")⟩
      (FetchOutcome.resolved true (ParseResult.parsed (some ("Sent!")))) =
      ⟨"alice", "hi", true, some ("Sending...")⟩ :=
  inflight_guard_no_effect ⟨"alice", "hi", true, some ("Sending...")⟩
    (FetchOutcome.resolved true (ParseResult.parsed (some ("Sent!")))) rfl

/-- C6: for every submission that passes the guard, whatever the server
behaviour (success, HTTP error, parse failure, or rejected fetch), the
in-flight flag is false when the run completes. -/
theorem inflight_flag_cleared (s : AppState) (o : FetchOutcome)
    (h1 : s.message ≠ "") (h2 : s.isLoading = false) :
    (submitFinal s o).isLoading = false := by
  cases o with
  | rejected t =>
    simp [submitFinal, submitEvents, applyEvents, applyEvent, h1, h2]
  | resolved ok p =>
    cases p with
    | threw t =>
      simp [submitFinal, submitEvents, applyEvents, applyEvent, h1, h2]
    | parsed fld =>
      cases ok <;>
        simp [submitFinal, submitEvents, applyEvents, applyEvent, h1, h2]

/-- C6 witness at a concrete state and outcome. -/
theorem inflight_flag_cleared_witness :
    (submitFinal ⟨"alice", "hi", false, none⟩ (FetchOutcome.rejected Thrown.nonError)).isLoading = false :=
  inflight_flag_cleared ⟨"alice", "hi", false, none⟩ (FetchOutcome.rejected Thrown.nonError)
    (by decide) rfl

/-- C1: a guarded submission whose response resolves with `ok` and body
`\x7b"status":"Sent!"\x7d` displays the server status string verbatim,
clears the message field, and leaves the username unchanged. -/
theorem success_displays_status_and_clears_message (s : AppState)
    (h1 : s.message ≠ "") (h2 : s.isLoading = false) :
    displayedStatus (submitFinal s (FetchOutcome.resolved true (ParseResult.parsed (some ("Sent!"))))) =
      some ("Sent!") ∧
    (submitFinal s (FetchOutcome.resolved true (ParseResult.parsed (some ("Sent!"))))).message = "" ∧
    (submitFinal s (FetchOutcome.resolved true (ParseResult.parsed (some ("Sent!"))))).username =
      s.username := by
  refine ⟨?_, ?_, ?_⟩ <;>
    simp [submitFinal, submitEvents, applyEvents, applyEvent, displayedStatus, h1, h2]

/-- C1 witness at a concrete state. -/
theorem success_displays_status_and_clears_message_witness :
    displayedStatus (submitFinal ⟨"alice", "hi", false, none⟩
      (FetchOutcome.resolved true (ParseResult.parsed (some ("Sent!"))))) = some ("Sent!") ∧
    (submitFinal ⟨"alice", "hi", false, none⟩
      (FetchOutcome.resolved true (ParseResult.parsed (some ("Sent!"))))).message = "" ∧
    (submitFinal ⟨"alice", "hi", false, none⟩
      (FetchOutcome.resolved true (ParseResult.parsed (some ("Sent!"))))).username = "alice" :=
  success_displays_status_and_clears_message ⟨"alice", "hi", false, none⟩ (by decide) rfl

/-- C2 counterexample: with the status field present but equal to the empty
string, the displayed status is the generic "Error: An error occurred.",
not "Error: " followed by the (empty) status string, because the code uses
the falsy-test `data.status || ...`. -/
theorem http_error_empty_status_field_counterexample :
    displayedStatus (submitFinal ⟨"alice", "hi", false, none⟩
      (FetchOutcome.resolved false (ParseResult.parsed (some (""))))) =
      some ("Error: An error occurred.") ∧
    (submitFinal ⟨"alice", "hi", false, none⟩
      (FetchOutcome.resolved false (ParseResult.parsed (some (""))))).status ≠
      some ("Error: ") := by
  exact ⟨by decide, by decide⟩

/-- C2 (amended): on a non-ok response, the displayed status is "Error: "
followed by the body status string when that string is non-empty, and the
generic "Error: An error occurred." when the field is absent or empty; in
both cases the message field is not cleared. -/
theorem http_error_prefixed_status (s : AppState) (fld : Option String)
    (h1 : s.message ≠ "") (h2 : s.isLoading = false) :
    (∀ str, fld = some str → str ≠ "" →
      displayedStatus (submitFinal s (FetchOutcome.resolved false (ParseResult.parsed fld))) =
        some ("Error: " ++ str)) ∧
    ((fld = none ∨ fld = some ("")) →
      displayedStatus (submitFinal s (FetchOutcome.resolved false (ParseResult.parsed fld))) =
        some ("Error: An error occurred.")) ∧
    (submitFinal s (FetchOutcome.resolved false (ParseResult.parsed fld))).message = s.message := by
  refine ⟨?_, ?_, ?_⟩
  · intro str hf hs
    subst hf
    simp [submitFinal, submitEvents, applyEvents, applyEvent, displayedStatus,
          catchMessage, jsOrDefault, h1, h2, hs, error_prefix_ne_empty]
  · rintro (hf | hf) <;> subst hf <;>
      simp [submitFinal, submitEvents, applyEvents, applyEvent, displayedStatus,
            catchMessage, jsOrDefault, h1, h2]
  · simp [submitFinal, submitEvents, applyEvents, applyEvent, h1, h2]

/-- C2 (amended) witness at a concrete state and status field. -/
theorem http_error_prefixed_status_witness :
    (∀ str, (some ("Rate limited") : Option String) = some str → str ≠ "" →
      displayedStatus (submitFinal ⟨"alice", "hi", false, none⟩
        (FetchOutcome.resolved false (ParseResult.parsed (some ("Rate limited"))))) =
        some ("Error: " ++ str)) ∧
    (((some ("Rate limited") : Option String) = none ∨ (some ("Rate limited") : Option String) = some ("")) →
      displayedStatus (submitFinal ⟨"alice", "hi", false, none⟩
        (FetchOutcome.resolved false (ParseResult.parsed (some ("Rate limited"))))) =
        some ("Error: An error occurred.")) ∧
    (submitFinal ⟨"alice", "hi", false, none⟩
      (FetchOutcome.resolved false (ParseResult.parsed (some ("Rate limited"))))).message = "hi" :=
  http_error_prefixed_status ⟨"alice", "hi", false, none⟩ (some ("Rate limited")) (by decide) rfl

/-- C3: when the fetch or the body parse throws, the displayed status is
"Error: " followed by the exception message when the thrown value is an
Error object, and exactly "An unknown error occurred." otherwise. -/
theorem thrown_value_status (s : AppState) (msg : String)
    (h1 : s.message ≠ "") (h2 : s.isLoading = false) :
    (∀ ok : Bool,
      displayedStatus (submitFinal s (FetchOutcome.resolved ok (ParseResult.threw (Thrown.error msg)))) =
        some ("Error: " ++ msg) ∧
      displayedStatus (submitFinal s (FetchOutcome.resolved ok (ParseResult.threw Thrown.nonError))) =
        some ("An unknown error occurred.")) ∧
    displayedStatus (submitFinal s (FetchOutcome.rejected (Thrown.error msg))) =
      some ("Error: " ++ msg) ∧
    displayedStatus (submitFinal s (FetchOutcome.rejected Thrown.nonError)) =
      some ("An unknown error occurred.") := by
  refine ⟨fun ok => ⟨?_, ?_⟩, ?_, ?_⟩ <;>
    simp [submitFinal, submitEvents, applyEvents, applyEvent, displayedStatus,
          catchMessage, h1, h2, error_prefix_ne_empty]

/-- C3 witness at a concrete state and exception message. -/
theorem thrown_value_status_witness :
    (∀ ok : Bool,
      displayedStatus (submitFinal ⟨"alice", "hi", false, none⟩
        (FetchOutcome.resolved ok (ParseResult.threw (Thrown.error ("Failed to fetch"))))) =
        some ("Error: " ++ "Failed to fetch") ∧
      displayedStatus (submitFinal ⟨"alice", "hi", false, none⟩
        (FetchOutcome.resolved ok (ParseResult.threw Thrown.nonError))) =
        some ("An unknown error occurred.")) ∧
    displayedStatus (submitFinal ⟨"alice", "hi", false, none⟩
      (FetchOutcome.rejected (Thrown.error ("Failed to fetch")))) =
      some ("Error: " ++ "Failed to fetch") ∧
    displayedStatus (submitFinal ⟨"alice", "hi", false, none⟩
      (FetchOutcome.rejected Thrown.nonError)) =
      some ("An unknown error occurred.") :=
  thrown_value_status ⟨"alice", "hi", false, none⟩ ("Failed to fetch") (by decide) rfl

/-- C7: every submission past the guard issues exactly one request: a POST
to the fixed URL with a JSON content type and body
`\x7b"username":<identifier>,"message":<message>\x7d`. -/
theorem single_post_request (s : AppState) (o : FetchOutcome)
    (h1 : s.message ≠ "") (h2 : s.isLoading = false) :
    requestsOf (submitEvents s o) =
      [{ method := "POST", url := API_URL, contentType := "application/json",
         body := "\x7b\"username\":" ++ jsonQuote s.username ++
                   ",\"message\":" ++ jsonQuote s.message ++ "\x7d" }] := by
  cases o with
  | rejected t =>
    simp [requestsOf, submitEvents, mkRequest, jsonStringifyUM, h1, h2]
  | resolved ok p =>
    cases p with
    | threw t =>
      simp [requestsOf, submitEvents, mkRequest, jsonStringifyUM, h1, h2]
    | parsed fld =>
      cases ok <;>
        simp [requestsOf, submitEvents, mkRequest, jsonStringifyUM, h1, h2]

/-- C7 witness at a concrete state and outcome. -/
theorem single_post_request_witness :
    requestsOf (submitEvents ⟨"alice", "hi", false, none⟩
      (FetchOutcome.resolved true (ParseResult.parsed (some ("Sent!"))))) =
      [{ method := "POST", url := API_URL, contentType := "application/json",
         body := "\x7b\"username\":" ++ jsonQuote ("alice") ++
                   ",\"message\":" ++ jsonQuote ("hi") ++ "\x7d" }] :=
  single_post_request ⟨"alice", "hi", false, none⟩
    (FetchOutcome.resolved true (ParseResult.parsed (some ("Sent!")))) (by decide) rfl

/-- C8 counterexample: at a concrete successful run the status values set
are "Sending..." and then "Sent!"; the literal "sending" is never set, so
the claim's quoted initial status string is wrong. -/
theorem status_sending_literal_counterexample :
    statusSets (submitEvents ⟨"alice", "hi", false, none⟩
      (FetchOutcome.resolved true (ParseResult.parsed (some ("Sent!"))))) =
      [some ("Sending..."), some ("Sent!")] ∧
    Event.setStatus (some ("sending")) ∉ submitEvents ⟨"alice", "hi", false, none⟩
      (FetchOutcome.resolved true (ParseResult.parsed (some ("Sent!")))) := by
  exact ⟨by decide, by decide⟩

/-- C8 (amended): on every submission past the guard, the status is set to
"Sending..." before the request is issued, and a later event sets the
status again (to the server response or error text). -/
theorem status_sending_set_before_request (s : AppState) (o : FetchOutcome)
    (h1 : s.message ≠ "") (h2 : s.isLoading = false) :
    ∃ tail, submitEvents s o =
      Event.setIsLoading true :: Event.setStatus (some ("Sending...")) ::
        Event.request (mkRequest s.username s.message) :: tail ∧
      ∃ v, Event.setStatus v ∈ tail := by
  cases o with
  | rejected t =>
    refine ⟨[Event.setStatus (some (catchMessage t)), Event.setIsLoading false],
            ?_, some (catchMessage t), by simp⟩
    simp [submitEvents, h1, h2]
  | resolved ok p =>
    cases p with
    | threw t =>
      refine ⟨[Event.setStatus (some (catchMessage t)), Event.setIsLoading false],
              ?_, some (catchMessage t), by simp⟩
      simp [submitEvents, h1, h2]
    | parsed fld =>
      cases ok with
      | true =>
        refine ⟨[Event.setStatus fld, Event.setMessage "", Event.setIsLoading false],
                ?_, fld, by simp⟩
        simp [submitEvents, h1, h2]
      | false =>
        refine ⟨[Event.setStatus
                   (some (catchMessage (Thrown.error (jsOrDefault fld ("An error occurred."))))),
                 Event.setIsLoading false],
                ?_, some (catchMessage (Thrown.error (jsOrDefault fld ("An error occurred.")))),
                by simp⟩
        simp [submitEvents, h1, h2]

/-- C8 (amended) witness at a concrete state and outcome. -/
theorem status_sending_set_before_request_witness :
    ∃ tail, submitEvents ⟨"alice", "hi", false, none⟩
      (FetchOutcome.resolved true (ParseResult.parsed (some ("Sent!")))) =
      Event.setIsLoading true :: Event.setStatus (some ("Sending...")) ::
        Event.request (mkRequest "alice" "hi") :: tail ∧
      ∃ v, Event.setStatus v ∈ tail :=
  status_sending_set_before_request ⟨"alice", "hi", false, none⟩
    (FetchOutcome.resolved true (ParseResult.parsed (some ("Sent!")))) (by decide) rfl

/-- C9: when the body parse throws, the run is identical whatever the HTTP
`ok` flag is (the `!response.ok` branch is never reached), and the final
status derives from the parse exception: "Error: " followed by its message
when it is an Error object. -/
theorem parse_failure_ignores_http_status (s : AppState) (t : Thrown) (ok : Bool)
    (h1 : s.message ≠ "") (h2 : s.isLoading = false) :
    submitEvents s (FetchOutcome.resolved ok (ParseResult.threw t)) =
      submitEvents s (FetchOutcome.resolved true (ParseResult.threw t)) ∧
    (submitFinal s (FetchOutcome.resolved ok (ParseResult.threw t))).status =
      some (catchMessage t) ∧
    (∀ msg, t = Thrown.error msg →
      displayedStatus (submitFinal s (FetchOutcome.resolved ok (ParseResult.threw t))) =
        some ("Error: " ++ msg)) := by
  refine ⟨by simp [submitEvents], ?_, ?_⟩
  · simp [submitFinal, submitEvents, applyEvents, applyEvent, h1, h2]
  · intro msg hm
    subst hm
    simp [submitFinal, submitEvents, applyEvents, applyEvent, displayedStatus,
          catchMessage, h1, h2, error_prefix_ne_empty]

/-- C9 witness at a concrete state, thrown value and (non-ok) HTTP flag. -/
theorem parse_failure_ignores_http_status_witness :
    submitEvents ⟨"alice", "hi", false, none⟩
      (FetchOutcome.resolved false (ParseResult.threw (Thrown.error ("Unexpected token")))) =
      submitEvents ⟨"alice", "hi", false, none⟩
        (FetchOutcome.resolved true (ParseResult.threw (Thrown.error ("Unexpected token")))) ∧
    (submitFinal ⟨"alice", "hi", false, none⟩
      (FetchOutcome.resolved false (ParseResult.threw (Thrown.error ("Unexpected token"))))).status =
      some (catchMessage (Thrown.error ("Unexpected token"))) ∧
    (∀ msg, Thrown.error ("Unexpected token") = Thrown.error msg →
      displayedStatus (submitFinal ⟨"alice", "hi", false, none⟩
        (FetchOutcome.resolved false (ParseResult.threw (Thrown.error ("Unexpected token"))))) =
        some ("Error: " ++ msg)) :=
  parse_failure_ignores_http_status ⟨"alice", "hi", false, none⟩
    (Thrown.error ("Unexpected token")) false (by decide) rfl

/-- The request body with an empty username, with the constant pieces
merged: it contains the `"username":""` member. -/
lemma jsonStringifyUM_empty_user (m : String) :
    jsonStringifyUM "" m =
      "\x7b\"username\":\"\",\"message\":" ++ jsonQuote m ++ "\x7d" := by
  show "\x7b\"username\":" ++ jsonQuote "" ++ ",\"message\":" ++ jsonQuote m ++ "\x7d" =
    "\x7b\"username\":\"\",\"message\":" ++ jsonQuote m ++ "\x7d"
  have h : jsonQuote "" = "\"\"" := rfl
  rw [h]
  congr 2

/-- C10: an empty username does not block submission: with a non-empty
message and no request outstanding, the POST is still sent, and its JSON
body carries `"username":""`. -/
theorem empty_username_still_sends (s : AppState) (o : FetchOutcome)
    (h1 : s.message ≠ "") (h2 : s.isLoading = false) (h3 : s.username = "") :
    requestsOf (submitEvents s o) = [mkRequest "" s.message] ∧
    (mkRequest "" s.message).body =
      "\x7b\"username\":\"\",\"message\":" ++ jsonQuote s.message ++ "\x7d" := by
  refine ⟨?_, jsonStringifyUM_empty_user s.message⟩
  cases o with
  | rejected t =>
    simp [requestsOf, submitEvents, h1, h2, h3]
  | resolved ok p =>
    cases p with
    | threw t =>
      simp [requestsOf, submitEvents, h1, h2, h3]
    | parsed fld =>
      cases ok <;> simp [requestsOf, submitEvents, h1, h2, h3]

/-- C10 witness at a concrete state and outcome. -/
theorem empty_username_still_sends_witness :
    requestsOf (submitEvents ⟨"", "hello", false, none⟩
      (FetchOutcome.resolved true (ParseResult.parsed (some ("Sent!"))))) =
      [mkRequest "" "hello"] ∧
    (mkRequest "" "hello").body =
      "\x7b\"username\":\"\",\"message\":" ++ jsonQuote ("hello") ++ "\x7d" :=
  empty_username_still_sends ⟨"", "hello", false, none⟩
    (FetchOutcome.resolved true (ParseResult.parsed (some ("Sent!")))) (by decide) rfl rfl

end RippleApp
